import Mathlib

/-!
Verification development for the speech-training coaching tool
(a Streamlit controller in app.py over the OpenAI adapter in
src/openai_client.py).

The program is a thin sequencing layer over external calls, so the
embedding is parameterised by an environment of oracles: the hosted
chat-completion endpoint, the hosted transcription endpoint, and the
JSON parser (Python's json.loads).  Every repository-side computation
(template construction, error wrapping, session-state updates,
temporary-file handling, feedback rendering) is embedded directly from
the source.
-/

set_option maxRecDepth 8000

namespace SpeechDojo

/-- JSON values, as produced by json.loads.  Numbers are modelled as
rationals (JSON has a single number type). -/
inductive JVal where
  | null
  | bool (b : Bool)
  | num (q : Rat)
  | str (s : String)
  | arr (elems : List JVal)
  | obj (fields : List (String × JVal))

/-- Python str.strip(): remove leading and trailing whitespace. -/
def pyStrip (s : String) : String :=
  ⟨((s.data.dropWhile Char.isWhitespace).reverse.dropWhile Char.isWhitespace).reverse⟩

/-- One chat.completions.create request, as the adapter assembles it. -/
structure ChatRequest where
  model : String
  systemContent : String
  userContent : String
  temperature : Rat
  jsonObjectFormat : Bool

/-- One audio.transcriptions.create request, as the adapter assembles it. -/
structure TranscribeRequest where
  model : String
  fileBytes : List Nat
  language : String

/-- The external world the adapter calls into: the two hosted endpoints
and the JSON parser.  Each oracle either returns a value or raises
(modelled as an error message, Python's str(e)). -/
structure Env where
  chat : ChatRequest → Except String String
  transcription : TranscribeRequest → Except String String
  jsonLoads : String → Except String JVal

/-- System message used by all four analysis methods. -/
def analysisSystemMsg : String := "あなたは話し方トレーニングの専門コーチです。"

/-- System message used by generate_question. -/
def questionSystemMsg : String := "あなたは話し方トレーニングの質問生成AIです。"

/-- SpeechTrainingAI.__init__: resolve the key as Python's
api_key or os.getenv("OPENAI_API_KEY") (empty strings are falsy),
then raise ValueError when the result is missing or empty. -/
def speechTrainingAIInit (api_key envKey : Option String) : Except String String :=
  let resolved : Option String :=
    match api_key with
    | some k => if k = "" then envKey else some k
    | none => envKey
  match resolved with
  | none => .error "OpenAI APIキーが設定されていません"
  | some k => if k = "" then .error "OpenAI APIキーが設定されていません" else .ok k

/-- transcribe_audio: forward the audio bytes to Whisper with the
language fixed to Japanese; wrap any fault with the recognition label. -/
def transcribe_audio (env : Env) (fileBytes : List Nat) : Except String String :=
  match env.transcription { model := "whisper-1", fileBytes := fileBytes, language := "ja" } with
  | .ok t => .ok t
  | .error e => .error ("音声認識エラー: " ++ e)

/-- Head of the parrot-analysis f-string, up to the inserted question. -/
def parrotRubricHead : String :=
  "\nあなたは話し方トレーニングのコーチです。\n以下の「オウム返し訓練」の評価を行ってください。\n\n【訓練の目的】\n質問に対し、まずその質問内容を復唱（オウム返し）し、次に話す内容を考える時間（約2秒）を意図的に稼ぐ練習です。\n\n【提示された質問】\n"

/-- Segment of the parrot-analysis f-string between the question and the response. -/
def parrotRubricMid : String := "\n\n【ユーザーの回答】\n"

/-- Tail of the parrot-analysis f-string, after the inserted response. -/
def parrotRubricTail : String :=
  "\n\n【評価項目】\n1. 質問の復唱: 質問内容を適切にオウム返しできているか\n2. 回答の有無: 復唱の後に、自分なりの回答を述べているか\n3. 構成: 「復唱→回答」の流れができているか\n\n以下のJSON形式で評価してください：\n\x7b\n    \"has_parrot\": true/false,\n    \"has_answer\": true/false,\n    \"score\": 0-100,\n    \"feedback\": \"具体的なフィードバック（日本語、200文字以内）\",\n    \"good_points\": [\"良かった点1\", \"良かった点2\"],\n    \"improvements\": [\"改善点1\", \"改善点2\"]\n\x7d\n"

/-- Instruction string of analyze_parrot_response. -/
def parrotAnalysisPrompt (question user_response : String) : String :=
  parrotRubricHead ++ question ++ parrotRubricMid ++ user_response ++ parrotRubricTail

/-- Head of the commentary-analysis f-string, up to the inserted topic. -/
def commentaryRubricHead : String :=
  "\nあなたは話し方トレーニングのコーチです。\n以下の「実況トレーニング」の評価を行ってください。\n\n【訓練の目的】\n提示された物体を、短い言葉で区切りながら（句点を意識して）連ねていく発話練習です。\n長い言葉を使わず、簡潔に区切って話すことが重要です。\n\n【実況対象】\n"

/-- Segment of the commentary-analysis f-string between topic and speech. -/
def commentaryRubricMid : String := "\n\n【ユーザーの発話】\n"

/-- Tail of the commentary-analysis f-string, after the inserted speech. -/
def commentaryRubricTail : String :=
  "\n\n【評価項目】\n1. 句点の意識: 文章を「丸（句点）」で言い切れているか\n2. 簡潔さ: 一文が短く、わかりやすいか\n3. 接続詞の使用: 接続詞で繋げすぎていないか\n4. 具体性: 抽象的ではなく、具体的に表現できているか\n\n以下のJSON形式で評価してください：\n\x7b\n    \"sentence_count\": 文の数,\n    \"avg_sentence_length\": 平均文字数,\n    \"score\": 0-100,\n    \"feedback\": \"具体的なフィードバック（日本語、200文字以内）\",\n    \"good_points\": [\"良かった点1\", \"良かった点2\"],\n    \"improvements\": [\"改善点1\", \"改善点2\"]\n\x7d\n"

/-- Instruction string of analyze_live_commentary. -/
def commentaryAnalysisPrompt (topic user_speech : String) : String :=
  commentaryRubricHead ++ topic ++ commentaryRubricMid ++ user_speech ++ commentaryRubricTail

/-- Head of the self-questioning-analysis f-string. -/
def selfQuestioningRubricHead : String :=
  "\nあなたは話し方トレーニングのコーチです。\n以下の「自問自答ダイアログ」の評価を行ってください。\n\n【訓練の目的】\n提示された日常の行動に対し、「なぜ？」を問いかけ、深掘りした理由を言語化させる練習です。\n思考の引き出しを増やすことが目的です。\n\n【提示された行動】\n"

/-- Segment of the self-questioning-analysis f-string between action and response. -/
def selfQuestioningRubricMid : String := "\n\n【ユーザーの回答】\n"

/-- Tail of the self-questioning-analysis f-string. -/
def selfQuestioningRubricTail : String :=
  "\n\n【評価項目】\n1. 深掘り度: 表面的ではなく、深い理由まで言語化できているか\n2. 具体性: 抽象的ではなく、具体的に説明できているか\n3. 思考の広がり: 複数の視点や理由を述べているか\n4. 言語化力: 自分の考えを言葉にできているか\n\n以下のJSON形式で評価してください：\n\x7b\n    \"depth_level\": 1-5（深掘りの深さ）,\n    \"is_specific\": true/false,\n    \"score\": 0-100,\n    \"feedback\": \"具体的なフィードバック（日本語、200文字以内）\",\n    \"good_points\": [\"良かった点1\", \"良かった点2\"],\n    \"improvements\": [\"改善点1\", \"改善点2\"]\n\x7d\n"

/-- Instruction string of analyze_self_questioning. -/
def selfQuestioningAnalysisPrompt (action user_response : String) : String :=
  selfQuestioningRubricHead ++ action ++ selfQuestioningRubricMid ++ user_response ++ selfQuestioningRubricTail

/-- Head of the conclusion-first-analysis f-string. -/
def conclusionFirstRubricHead : String :=
  "\nあなたは話し方トレーニングのコーチです。\n以下の「結論ファースト訓練」の評価を行ってください。\n\n【訓練の目的】\n質問に対し、まず結論を強く言い切る発話練習です。\n冒頭に「パンチワード」または「エッセンスワード」があることが重要です。\n\n【提示された質問】\n"

/-- Segment of the conclusion-first-analysis f-string between question and response. -/
def conclusionFirstRubricMid : String := "\n\n【ユーザーの回答】\n"

/-- Tail of the conclusion-first-analysis f-string. -/
def conclusionFirstRubricTail : String :=
  "\n\n【評価項目】\n1. 結論ファースト: 冒頭に結論が来ているか\n2. 言い切り: 断定的に、強く言い切れているか\n3. パンチワード: インパクトのある言葉で始まっているか\n4. 明確性: 何を言いたいのかが明確か\n\n以下のJSON形式で評価してください：\n\x7b\n    \"has_conclusion_first\": true/false,\n    \"has_punch_word\": true/false,\n    \"assertiveness\": 1-5（言い切りの強さ）,\n    \"score\": 0-100,\n    \"feedback\": \"具体的なフィードバック（日本語、200文字以内）\",\n    \"good_points\": [\"良かった点1\", \"良かった点2\"],\n    \"improvements\": [\"改善点1\", \"改善点2\"]\n\x7d\n"

/-- Instruction string of analyze_conclusion_first. -/
def conclusionFirstAnalysisPrompt (question user_response : String) : String :=
  conclusionFirstRubricHead ++ question ++ conclusionFirstRubricMid ++ user_response ++ conclusionFirstRubricTail

/-- The chat request assembled by analyze_parrot_response. -/
def parrotAnalysisRequest (question user_response : String) : ChatRequest :=
  { model := "gpt-4", systemContent := analysisSystemMsg,
    userContent := parrotAnalysisPrompt question user_response,
    temperature := 0.7, jsonObjectFormat := true }

/-- The chat request assembled by analyze_live_commentary. -/
def commentaryAnalysisRequest (topic user_speech : String) : ChatRequest :=
  { model := "gpt-4", systemContent := analysisSystemMsg,
    userContent := commentaryAnalysisPrompt topic user_speech,
    temperature := 0.7, jsonObjectFormat := true }

/-- The chat request assembled by analyze_self_questioning. -/
def selfQuestioningAnalysisRequest (action user_response : String) : ChatRequest :=
  { model := "gpt-4", systemContent := analysisSystemMsg,
    userContent := selfQuestioningAnalysisPrompt action user_response,
    temperature := 0.7, jsonObjectFormat := true }

/-- The chat request assembled by analyze_conclusion_first. -/
def conclusionFirstAnalysisRequest (question user_response : String) : ChatRequest :=
  { model := "gpt-4", systemContent := analysisSystemMsg,
    userContent := conclusionFirstAnalysisPrompt question user_response,
    temperature := 0.7, jsonObjectFormat := true }

/-- Shared body of the four analysis methods: issue the chat request,
parse the returned content with json.loads, return the parsed value
unmodified; any fault from either step is re-raised with the single
generic analysis label. -/
def analysisCall (env : Env) (req : ChatRequest) : Except String JVal :=
  match env.chat req with
  | .error e => .error ("分析エラー: " ++ e)
  | .ok content =>
    match env.jsonLoads content with
    | .ok result => .ok result
    | .error e => .error ("分析エラー: " ++ e)

/-- analyze_parrot_response. -/
def analyze_parrot_response (env : Env) (question user_response : String) : Except String JVal :=
  analysisCall env (parrotAnalysisRequest question user_response)

/-- analyze_live_commentary. -/
def analyze_live_commentary (env : Env) (topic user_speech : String) : Except String JVal :=
  analysisCall env (commentaryAnalysisRequest topic user_speech)

/-- analyze_self_questioning. -/
def analyze_self_questioning (env : Env) (action user_response : String) : Except String JVal :=
  analysisCall env (selfQuestioningAnalysisRequest action user_response)

/-- analyze_conclusion_first. -/
def analyze_conclusion_first (env : Env) (question user_response : String) : Except String JVal :=
  analysisCall env (conclusionFirstAnalysisRequest question user_response)

/-- Template generate_question selects for training_type = "parrot". -/
def parrotQuestionTemplate : String :=
  "\n話し方トレーニングの「オウム返し訓練」用の質問を1つ生成してください。\n日常的で答えやすい質問にしてください。\n\n例：\n- 今日の朝ごはんは何を食べましたか？\n- 最近ハマっていることは何ですか？\n- 好きな季節とその理由を教えてください\n\n質問文のみを出力してください。\n"

/-- Template generate_question selects for training_type = "commentary". -/
def commentaryQuestionTemplate : String :=
  "\n話し方トレーニングの「実況トレーニング」用のトピックを1つ生成してください。\n身の回りにある具体的な物や場所にしてください。\n\n例：\n- 自分のスマートフォン\n- 今いる部屋\n- 自分の手\n\nトピック名のみを出力してください。\n"

/-- Template generate_question selects for training_type = "self_questioning". -/
def selfQuestioningQuestionTemplate : String :=
  "\n話し方トレーニングの「自問自答ダイアログ」用の日常行動を1つ生成してください。\nユーザーが「なぜそれをするのか」を深掘りできるような行動にしてください。\n\n例：\n- 毎朝コーヒーを飲む\n- スマホを頻繁にチェックする\n- 週末に散歩をする\n\n「〜をする」という形式で、行動のみを出力してください。\n"

/-- Template generate_question selects in its else branch (conclusion_first
and every unrecognized tag). -/
def conclusionFirstQuestionTemplate : String :=
  "\n話し方トレーニングの「結論ファースト訓練」用の質問を1つ生成してください。\n意見や考えを求める質問にしてください。\n\n例：\n- あなたにとって仕事で最も大切なことは何ですか？\n- 今年の目標を一言で表すと？\n- この会議で最も重要な論点は何だと思いますか？\n\n質問文のみを出力してください。\n"

/-- Template selection of generate_question (the if/elif/else chain). -/
def questionPrompt (training_type : String) : String :=
  if training_type = "parrot" then parrotQuestionTemplate
  else if training_type = "commentary" then commentaryQuestionTemplate
  else if training_type = "self_questioning" then selfQuestioningQuestionTemplate
  else conclusionFirstQuestionTemplate

/-- The chat request assembled by generate_question. -/
def questionRequest (training_type : String) : ChatRequest :=
  { model := "gpt-4", systemContent := questionSystemMsg,
    userContent := questionPrompt training_type,
    temperature := 0.9, jsonObjectFormat := false }

/-- generate_question: issue the request, return the content stripped of
leading and trailing whitespace; wrap any fault with the generation label. -/
def generate_question (env : Env) (training_type : String) : Except String String :=
  match env.chat (questionRequest training_type) with
  | .ok content => .ok (pyStrip content)
  | .error e => .error ("質問生成エラー: " ++ e)

/-- Python truthiness of a JSON value (used where the code writes
if good_points: and for the boolean drill fields). -/
def pyTruthy : JVal → Bool
  | .null => false
  | .bool b => b
  | .num q => decide (q ≠ 0)
  | .str s => decide (s ≠ "")
  | .arr xs => !xs.isEmpty
  | .obj fs => !fs.isEmpty

/-- Values Python arithmetic and comparisons accept as numbers
(bool is an int subclass); anything else raises there. -/
def pyNum : JVal → Option Rat
  | .num q => some q
  | .bool b => some (if b then 1 else 0)
  | _ => none

/-- What the truthiness-guarded rendering loop produces for a value
read from the feedback dictionary.  A falsy value (null, false, 0, "",
an empty list or dict) skips the loop and the else branch shows 該当なし,
modelled as the empty item list; a truthy list iterates its items, a
truthy string its characters, a truthy dict its keys; a truthy bool or
nonzero number is not iterable and raises. -/
def pyLoopItems (v : JVal) : Option (List JVal) :=
  if pyTruthy v = false then some []
  else
    match v with
    | .arr xs => some xs
    | .str s => some (s.data.map (fun c => .str (String.mk [c])))
    | .obj fs => some (fs.map (fun kv => .str kv.fst))
    | _ => none

/-- Python repr of a number inside an f-string, for the integral values
the rendering actually produces. -/
def pyNumRepr (q : Rat) : String :=
  if q.den = 1 then toString q.num else toString q

/-- dict.get(key, default) on the feedback dictionary. -/
def dictGet (fields : List (String × JVal)) (key : String) (dflt : JVal) : JVal :=
  match fields with
  | [] => dflt
  | kv :: rest => if kv.fst = key then kv.snd else dictGet rest key dflt

/-- The three score bands of display_feedback: st.success for 80 and
above, st.info for 60 and above, st.warning below. -/
inductive ScoreBand where
  | high
  | mid
  | low
deriving DecidableEq

/-- Band selection of display_feedback. -/
def scoreBand (score : Rat) : ScoreBand :=
  if 80 ≤ score then .high else if 60 ≤ score then .mid else .low

/-- Everything display_feedback renders, by field. -/
structure FeedbackRender where
  score : Rat
  scoreText : String
  band : ScoreBand
  progressValue : Rat
  feedbackText : JVal
  goodPoints : List JVal
  improvements : List JVal
  parrotFlags : Option (Bool × Bool)
  commentaryStats : Option (JVal × Rat)

/-- display_feedback: every field is read with dict.get and a default
(score 0, feedback "", the two lists [], the drill booleans False,
sentence_count 0, avg_sentence_length 0).  Returns none where Python
would raise on a wrongly-typed present field (a non-numeric score or
avg_sentence_length, or a truthy non-iterable good_points or
improvements). -/
def display_feedback (feedback : List (String × JVal)) (training_type : String) :
    Option FeedbackRender :=
  match pyNum (dictGet feedback "score" (.num 0)) with
  | none => none
  | some score =>
    match pyLoopItems (dictGet feedback "good_points" (.arr [])) with
    | none => none
    | some goodPoints =>
      match pyLoopItems (dictGet feedback "improvements" (.arr [])) with
      | none => none
      | some improvements =>
        let base : FeedbackRender :=
          { score := score, scoreText := pyNumRepr score ++ "/100",
            band := scoreBand score, progressValue := score / 100,
            feedbackText := dictGet feedback "feedback" (.str ""),
            goodPoints := goodPoints, improvements := improvements,
            parrotFlags := none, commentaryStats := none }
        if training_type = "parrot" then
          let flags := some (pyTruthy (dictGet feedback "has_parrot" (.bool false)),
                             pyTruthy (dictGet feedback "has_answer" (.bool false)))
          some { base with parrotFlags := flags }
        else if training_type = "commentary" then
          match pyNum (dictGet feedback "avg_sentence_length" (.num 0)) with
          | none => none
          | some avg =>
            let stats := some (dictGet feedback "sentence_count" (.num 0), avg)
            some { base with commentaryStats := stats }
        else
          some base

/-- The feedback value the handlers pass to display_feedback is whatever
json.loads produced; .get on a non-dict raises in Python. -/
def renderFeedback (fb : JVal) (training_type : String) : Option FeedbackRender :=
  match fb with
  | .obj fields => display_feedback fields training_type
  | _ => none

/-- Per-session Streamlit state touched by the handlers. -/
structure SessionState where
  current_question : Option String
  transcribed_text : Option String
  feedback : Option JVal

/-- Streamlit output emitted during one submit-handler run.  renderFault
stands for the except-block message shown when display_feedback itself
raises; its text is the repr of the Python exception. -/
inductive Msg where
  | errorBox (s : String)
  | successBox (s : String)
  | mdText (s : String)
  | textOut (s : String)
  | feedbackView (r : FeedbackRender)
  | renderFault

/-- Adapter calls issued during one submit-handler run. -/
inductive AdapterCall where
  | transcribeAudio
  | analyzeParrot (question transcript : String)
  | analyzeCommentary (topic speech : String)

/-- Path of the temporary recording, audio_files/recorded_audio.wav. -/
def audioFilePath : String := "audio_files/recorded_audio.wav"

/-- save_audio_file: write (create or truncate) the recording under the
fixed path inside audio_files. -/
def save_audio_file (files : List (String × List Nat)) (audio_bytes : List Nat) :
    List (String × List Nat) :=
  (audioFilePath, audio_bytes) :: files.filter (fun kv => kv.fst ≠ audioFilePath)

/-- Read a file from the modelled directory. -/
def fsLookup (files : List (String × List Nat)) (path : String) : Option (List Nat) :=
  match files with
  | [] => none
  | kv :: rest => if kv.fst = path then some kv.snd else fsLookup rest path

/-- os.remove. -/
def fsRemove (files : List (String × List Nat)) (path : String) :
    List (String × List Nat) :=
  files.filter (fun kv => kv.fst ≠ path)

/-- Outcome of one submit-handler run: the session state, the audio
directory, the Streamlit output, and the adapter calls made. -/
structure RunResult where
  state : SessionState
  files : List (String × List Nat)
  shown : List Msg
  calls : List AdapterCall

/-- Body of the try block shared by the two submit handlers, from
save_audio_file to os.remove, with the whole block wrapped by the
except that shows エラーが発生しました.  analyze runs the drill-specific
analysis; callTag records which analysis was invoked; renderTag is the
training_type given to display_feedback. -/
def submitRun (env : Env) (st : SessionState) (files : List (String × List Nat))
    (audio_bytes : List Nat)
    (analyze : Env → String → Except String JVal)
    (callTag : String → AdapterCall) (renderTag : String) : RunResult :=
  let files1 := save_audio_file files audio_bytes
  match transcribe_audio env ((fsLookup files1 audioFilePath).getD []) with
  | .error e =>
    { state := st, files := files1,
      shown := [.errorBox ("エラーが発生しました: " ++ e)],
      calls := [.transcribeAudio] }
  | .ok text =>
    let st1 := { st with transcribed_text := some text }
    match analyze env text with
    | .error e =>
      { state := st1, files := files1,
        shown := [.successBox "✅ 音声認識完了", .mdText "### 📝 認識されたテキスト",
                  .textOut text, .errorBox ("エラーが発生しました: " ++ e)],
        calls := [.transcribeAudio, callTag text] }
    | .ok fb =>
      let st2 := { st1 with feedback := some fb }
      match renderFeedback fb renderTag with
      | none =>
        { state := st2, files := files1,
          shown := [.successBox "✅ 音声認識完了", .mdText "### 📝 認識されたテキスト",
                    .textOut text, .renderFault],
          calls := [.transcribeAudio, callTag text] }
      | some render =>
        { state := st2, files := fsRemove files1 audioFilePath,
          shown := [.successBox "✅ 音声認識完了", .mdText "### 📝 認識されたテキスト",
                    .textOut text, .feedbackView render],
          calls := [.transcribeAudio, callTag text] }

/-- The 音声を分析 handler of parrot_training, run with the session's
current question. -/
def parrotSubmitRun (env : Env) (question : String) (st : SessionState)
    (files : List (String × List Nat)) (audio_bytes : List Nat) : RunResult :=
  submitRun env st files audio_bytes
    (fun e t => analyze_parrot_response e question t)
    (fun t => .analyzeParrot question t) "parrot"

/-- The 音声を分析 handler of commentary_training, run with the session's
current topic. -/
def commentarySubmitRun (env : Env) (topic : String) (st : SessionState)
    (files : List (String × List Nat)) (audio_bytes : List Nat) : RunResult :=
  submitRun env st files audio_bytes
    (fun e t => analyze_live_commentary e topic t)
    (fun t => .analyzeCommentary topic t) "commentary"

/-- What the app does at startup: either the client is constructed and
the drill UI runs, or the error banner is shown and st.stop() halts the
script before any drill is reachable. -/
inductive StartupResult where
  | halted (errMsg : String)
  | running (clientKey : String)
deriving DecidableEq

/-- Session-state initialization of app.py: construct SpeechTrainingAI
with no explicit key; on ValueError show the banner and stop. -/
def appStartup (envKey : Option String) : StartupResult :=
  match speechTrainingAIInit none envKey with
  | .error _ => .halted "⚠️ OpenAI APIキーが設定されていません。.envファイルを確認してください。"
  | .ok k => .running k

/-- Containment of a verbatim contiguous substring. -/
def containsVerbatim (s sub : String) : Prop := ∃ a b, s = a ++ sub ++ b

/-- Boolean check that one character list starts with another. -/
def charsStartsWith : List Char → List Char → Bool
  | _, [] => true
  | [], _ :: _ => false
  | a :: as, b :: bs => decide (b = a) && charsStartsWith as bs

/-- Boolean check that pat occurs contiguously in the second list. -/
def charsContains (pat : List Char) : List Char → Bool
  | [] => pat.isEmpty
  | a :: as => charsStartsWith (a :: as) pat || charsContains pat as

/-- Executable substring containment on strings. -/
def strContainsB (s pat : String) : Bool := charsContains pat.data s.data

/-- First-match association lookup in a JSON object's field list. -/
def jFieldLookup : List (String × JVal) → String → Option JVal
  | [], _ => none
  | kv :: rest, key => if kv.fst = key then some kv.snd else jFieldLookup rest key

/-- Field lookup on a JSON value. -/
def jLookup (v : JVal) (key : String) : Option JVal :=
  match v with
  | .obj fields => jFieldLookup fields key
  | _ => none

/-- A feedback record has a numeric score field lying within [0,100]. -/
def scoreWithinRange (v : JVal) : Bool :=
  match jLookup v "score" with
  | some (.num q) => decide (0 ≤ q ∧ q ≤ 100)
  | _ => false

/-- Environment double whose every oracle raises with message boom. -/
def failEnv : Env :=
  { chat := fun _ => .error "boom",
    transcription := fun _ => .error "boom",
    jsonLoads := fun _ => .error "boom" }

/-- Environment double: transcription succeeds, the analysis completion
comes back as text that json.loads rejects. -/
def badJsonEnv : Env :=
  { chat := fun _ => .ok "not json",
    transcription := fun _ => .ok "パンを食べました",
    jsonLoads := fun _ => .error "Expecting value: line 1 column 1 (char 0)" }

/-- Environment double returning a parsed feedback object with score 85. -/
def goodEnv : Env :=
  { chat := fun _ => .ok "feedback json",
    transcription := fun _ => .ok "パンを食べました",
    jsonLoads := fun _ => .ok (.obj [("score", .num 85)]) }

/-- Environment double whose parsed feedback carries score 50 and a
null good_points field: falsy, so the rendering loop is skipped and the
render completes. -/
def nullPointsEnv : Env :=
  { chat := fun _ => .ok "feedback json",
    transcription := fun _ => .ok "パンを食べました",
    jsonLoads := fun _ => .ok (.obj [("score", .num 50), ("good_points", .null)]) }

/-- Environment double returning a parsed feedback object whose score is
150, outside [0,100]. -/
def overRangeEnv : Env :=
  { chat := fun _ => .ok "feedback json",
    transcription := fun _ => .ok "パンを食べました",
    jsonLoads := fun _ => .ok (.obj [("score", .num 150)]) }

/-- Chat-only double returning a fixed completion text. -/
def constChatEnv (content : String) : Env :=
  { chat := fun _ => .ok content,
    transcription := fun _ => .error "unused",
    jsonLoads := fun _ => .error "unused" }

/-- Looking up the path just written by save_audio_file returns the
bytes just written. -/
theorem fsLookup_save (files : List (String × List Nat)) (bytes : List Nat) :
    fsLookup (save_audio_file files bytes) audioFilePath = some bytes := by
  simp [save_audio_file, fsLookup]

/-- After os.remove, the removed path no longer resolves. -/
theorem fsLookup_fsRemove (files : List (String × List Nat)) (p : String) :
    fsLookup (fsRemove files p) p = none := by
  induction files with
  | nil => rfl
  | cons kv rest ih =>
    by_cases h : kv.fst = p
    · simpa [fsRemove, List.filter, h] using ih
    · simpa [fsRemove, List.filter, h, fsLookup] using ih

/-- C6: with no usable credential from either the argument or the
environment variable, SpeechTrainingAI construction raises, and the
controller halts at startup with the banner before any drill UI; with a
non-empty credential, construction succeeds and the app runs. -/
theorem claim_C6 :
    (∀ a e, (a = none ∨ a = some "") → (e = none ∨ e = some "") →
      speechTrainingAIInit a e = .error "OpenAI APIキーが設定されていません") ∧
    (∀ e, (e = none ∨ e = some "") →
      appStartup e = .halted "⚠️ OpenAI APIキーが設定されていません。.envファイルを確認してください。") ∧
    (∀ e k, k ≠ "" → speechTrainingAIInit (some k) e = .ok k) ∧
    (∀ k, k ≠ "" → appStartup (some k) = .running k) := by
  refine ⟨?_, ?_, ?_, ?_⟩
  · rintro a e (rfl | rfl) (rfl | rfl) <;> rfl
  · rintro e (rfl | rfl) <;> rfl
  · intro e k hk
    simp [speechTrainingAIInit, hk]
  · intro k hk
    simp [appStartup, speechTrainingAIInit, hk]

/-- Witness for C6 at concrete inputs: absent key halts, a real key runs. -/
theorem claim_C6_witness :
    speechTrainingAIInit none none = .error "OpenAI APIキーが設定されていません" ∧
    appStartup (some "") = .halted "⚠️ OpenAI APIキーが設定されていません。.envファイルを確認してください。" ∧
    speechTrainingAIInit (some "sk-test") none = .ok "sk-test" ∧
    appStartup (some "sk-test") = .running "sk-test" :=
  ⟨claim_C6.1 none none (Or.inl rfl) (Or.inl rfl),
   claim_C6.2.1 (some "") (Or.inr rfl),
   claim_C6.2.2.1 none "sk-test" (by decide),
   claim_C6.2.2.2 "sk-test" (by decide)⟩

/-- C7: every adapter operation re-raises any fault of the underlying
call as a generic error whose message is the original message behind the
operation-specific label, with no further classification. -/
theorem claim_C7 (env : Env) (m : String) :
    (∀ fileBytes,
      env.transcription { model := "whisper-1", fileBytes := fileBytes, language := "ja" } = .error m →
      transcribe_audio env fileBytes = .error ("音声認識エラー: " ++ m)) ∧
    (∀ q r, env.chat (parrotAnalysisRequest q r) = .error m →
      analyze_parrot_response env q r = .error ("分析エラー: " ++ m)) ∧
    (∀ t s, env.chat (commentaryAnalysisRequest t s) = .error m →
      analyze_live_commentary env t s = .error ("分析エラー: " ++ m)) ∧
    (∀ a r, env.chat (selfQuestioningAnalysisRequest a r) = .error m →
      analyze_self_questioning env a r = .error ("分析エラー: " ++ m)) ∧
    (∀ q r, env.chat (conclusionFirstAnalysisRequest q r) = .error m →
      analyze_conclusion_first env q r = .error ("分析エラー: " ++ m)) ∧
    (∀ t, env.chat (questionRequest t) = .error m →
      generate_question env t = .error ("質問生成エラー: " ++ m)) := by
  refine ⟨?_, ?_, ?_, ?_, ?_, ?_⟩
  · intro fileBytes h
    simp [transcribe_audio, h]
  · intro q r h
    simp [analyze_parrot_response, analysisCall, h]
  · intro t s h
    simp [analyze_live_commentary, analysisCall, h]
  · intro a r h
    simp [analyze_self_questioning, analysisCall, h]
  · intro q r h
    simp [analyze_conclusion_first, analysisCall, h]
  · intro t h
    simp [generate_question, h]

/-- Witness for C7: with a double raising boom everywhere, each
operation returns its label followed by boom. -/
theorem claim_C7_witness :
    transcribe_audio failEnv [0] = .error ("音声認識エラー: " ++ "boom") ∧
    analyze_parrot_response failEnv "質問" "回答" = .error ("分析エラー: " ++ "boom") ∧
    analyze_live_commentary failEnv "対象" "発話" = .error ("分析エラー: " ++ "boom") ∧
    analyze_self_questioning failEnv "行動" "回答" = .error ("分析エラー: " ++ "boom") ∧
    analyze_conclusion_first failEnv "質問" "回答" = .error ("分析エラー: " ++ "boom") ∧
    generate_question failEnv "parrot" = .error ("質問生成エラー: " ++ "boom") :=
  ⟨(claim_C7 failEnv "boom").1 [0] rfl,
   (claim_C7 failEnv "boom").2.1 "質問" "回答" rfl,
   (claim_C7 failEnv "boom").2.2.1 "対象" "発話" rfl,
   (claim_C7 failEnv "boom").2.2.2.1 "行動" "回答" rfl,
   (claim_C7 failEnv "boom").2.2.2.2.1 "質問" "回答" rfl,
   (claim_C7 failEnv "boom").2.2.2.2.2 "parrot" rfl⟩

/-- C10: any training_type other than the three recognized tags falls
through to the conclusion-first template, and the request is issued with
it rather than rejected. -/
theorem claim_C10 (t : String) (h1 : t ≠ "parrot") (h2 : t ≠ "commentary")
    (h3 : t ≠ "self_questioning") :
    questionPrompt t = conclusionFirstQuestionTemplate ∧
    (questionRequest t).userContent = conclusionFirstQuestionTemplate ∧
    (∀ env content, env.chat (questionRequest t) = .ok content →
      generate_question env t = .ok (pyStrip content)) := by
  refine ⟨?_, ?_, ?_⟩
  · simp [questionPrompt, h1, h2, h3]
  · simp [questionRequest, questionPrompt, h1, h2, h3]
  · intro env content h
    simp [generate_question, h]

/-- Witness for C10 at the unrecognized tag mystery_drill. -/
theorem claim_C10_witness :
    questionPrompt "mystery_drill" = conclusionFirstQuestionTemplate ∧
    generate_question (constChatEnv " 意見をどうぞ ") "mystery_drill" =
      .ok (pyStrip " 意見をどうぞ ") :=
  ⟨(claim_C10 "mystery_drill" (by decide) (by decide) (by decide)).1,
   (claim_C10 "mystery_drill" (by decide) (by decide) (by decide)).2.2
     (constChatEnv " 意見をどうぞ ") " 意見をどうぞ " rfl⟩

/-- C4: when the transcription call raises, the submit handler leaves the
whole session state unchanged (transcribed_text in particular stays as it
was) and issues no analysis call, in both drills. -/
theorem claim_C4 (env : Env) (m question : String) (st : SessionState)
    (files : List (String × List Nat)) (audio_bytes : List Nat)
    (h : env.transcription
      { model := "whisper-1", fileBytes := audio_bytes, language := "ja" } = .error m) :
    (parrotSubmitRun env question st files audio_bytes).state = st ∧
    (parrotSubmitRun env question st files audio_bytes).state.transcribed_text =
      st.transcribed_text ∧
    (parrotSubmitRun env question st files audio_bytes).calls = [.transcribeAudio] ∧
    (commentarySubmitRun env question st files audio_bytes).state = st ∧
    (commentarySubmitRun env question st files audio_bytes).calls = [.transcribeAudio] := by
  have htr : transcribe_audio env audio_bytes = .error ("音声認識エラー: " ++ m) := by
    simp [transcribe_audio, h]
  refine ⟨?_, ?_, ?_, ?_, ?_⟩ <;>
    simp [parrotSubmitRun, commentarySubmitRun, submitRun, fsLookup_save, htr]

/-- Witness for C4: a failing transcription double leaves the state
intact and the call trace free of analysis calls. -/
theorem claim_C4_witness :
    (parrotSubmitRun failEnv "今日の質問" ⟨some "今日の質問", none, none⟩ [] [7]).state =
      ⟨some "今日の質問", none, none⟩ ∧
    (parrotSubmitRun failEnv "今日の質問" ⟨some "今日の質問", none, none⟩ [] [7]).calls =
      [.transcribeAudio] :=
  ⟨(claim_C4 failEnv "boom" "今日の質問" ⟨some "今日の質問", none, none⟩ [] [7] rfl).1,
   (claim_C4 failEnv "boom" "今日の質問" ⟨some "今日の質問", none, none⟩ [] [7] rfl).2.2.1⟩

/-- C2 as stated is false: on the failure path the delete is never
reached.  With a transcription double that raises, a submit run leaves
the recorded file present in the audio directory. -/
theorem claim_C2_counterexample :
    fsLookup (parrotSubmitRun failEnv "質問" ⟨some "質問", none, none⟩ [] [7]).files
      audioFilePath = some [7] ∧
    (parrotSubmitRun failEnv "質問" ⟨some "質問", none, none⟩ [] [7]).files =
      [(audioFilePath, [7])] := by
  constructor <;> rfl

/-- C2 amended: the temporary recording is deleted only when
transcription, analysis and rendering all succeed; on every failure path
the remove call is never reached and the file remains, stated for the
shared submit-handler body of both drills. -/
theorem claim_C2 (env : Env) (st : SessionState) (files : List (String × List Nat))
    (audio_bytes : List Nat) (analyze : Env → String → Except String JVal)
    (callTag : String → AdapterCall) (renderTag : String) :
    (∀ m, env.transcription
        { model := "whisper-1", fileBytes := audio_bytes, language := "ja" } = .error m →
      fsLookup (submitRun env st files audio_bytes analyze callTag renderTag).files
        audioFilePath = some audio_bytes) ∧
    (∀ text m, env.transcription
        { model := "whisper-1", fileBytes := audio_bytes, language := "ja" } = .ok text →
      analyze env text = .error m →
      fsLookup (submitRun env st files audio_bytes analyze callTag renderTag).files
        audioFilePath = some audio_bytes) ∧
    (∀ text fb, env.transcription
        { model := "whisper-1", fileBytes := audio_bytes, language := "ja" } = .ok text →
      analyze env text = .ok fb →
      renderFeedback fb renderTag = none →
      fsLookup (submitRun env st files audio_bytes analyze callTag renderTag).files
        audioFilePath = some audio_bytes) ∧
    (∀ text fb render, env.transcription
        { model := "whisper-1", fileBytes := audio_bytes, language := "ja" } = .ok text →
      analyze env text = .ok fb →
      renderFeedback fb renderTag = some render →
      fsLookup (submitRun env st files audio_bytes analyze callTag renderTag).files
        audioFilePath = none) := by
  refine ⟨?_, ?_, ?_, ?_⟩
  · intro m h
    have htr : transcribe_audio env audio_bytes = .error ("音声認識エラー: " ++ m) := by
      simp [transcribe_audio, h]
    simp [submitRun, fsLookup_save, htr]
  · intro text m h ha
    have htr : transcribe_audio env audio_bytes = .ok text := by
      simp [transcribe_audio, h]
    simp [submitRun, fsLookup_save, htr, ha]
  · intro text fb h ha hr
    have htr : transcribe_audio env audio_bytes = .ok text := by
      simp [transcribe_audio, h]
    simp [submitRun, fsLookup_save, htr, ha, hr]
  · intro text fb render h ha hr
    have htr : transcribe_audio env audio_bytes = .ok text := by
      simp [transcribe_audio, h]
    simp [submitRun, fsLookup_save, htr, ha, hr, fsLookup_fsRemove]

/-- Witness for C2 amended: the file survives a failed run of the parrot
handler and is gone after a fully successful one, including a run whose
feedback carries a falsy (null) good_points field, which the rendering
loop skips without raising. -/
theorem claim_C2_witness :
    fsLookup (submitRun failEnv ⟨some "質問", none, none⟩ [] [7]
        (fun e t => analyze_parrot_response e "質問" t)
        (fun t => .analyzeParrot "質問" t) "parrot").files audioFilePath = some [7] ∧
    fsLookup (submitRun goodEnv ⟨some "質問", none, none⟩ [] [7]
        (fun e t => analyze_parrot_response e "質問" t)
        (fun t => .analyzeParrot "質問" t) "parrot").files audioFilePath = none ∧
    fsLookup (submitRun nullPointsEnv ⟨some "質問", none, none⟩ [] [7]
        (fun e t => analyze_parrot_response e "質問" t)
        (fun t => .analyzeParrot "質問" t) "parrot").files audioFilePath = none :=
  ⟨(claim_C2 failEnv ⟨some "質問", none, none⟩ [] [7]
      (fun e t => analyze_parrot_response e "質問" t)
      (fun t => .analyzeParrot "質問" t) "parrot").1 "boom" rfl,
   (claim_C2 goodEnv ⟨some "質問", none, none⟩ [] [7]
      (fun e t => analyze_parrot_response e "質問" t)
      (fun t => .analyzeParrot "質問" t) "parrot").2.2.2 "パンを食べました"
      (.obj [("score", .num 85)])
      { score := 85, scoreText := "85/100", band := .high, progressValue := 85 / 100,
        feedbackText := .str "", goodPoints := [], improvements := [],
        parrotFlags := some (false, false), commentaryStats := none }
      rfl rfl (by rfl),
   (claim_C2 nullPointsEnv ⟨some "質問", none, none⟩ [] [7]
      (fun e t => analyze_parrot_response e "質問" t)
      (fun t => .analyzeParrot "質問" t) "parrot").2.2.2 "パンを食べました"
      (.obj [("score", .num 50), ("good_points", .null)])
      { score := 50, scoreText := "50/100", band := .low, progressValue := 50 / 100,
        feedbackText := .str "", goodPoints := [], improvements := [],
        parrotFlags := some (false, false), commentaryStats := none }
      rfl rfl (by rfl)⟩

/-- C3: a completion the JSON parser rejects is re-raised with exactly
the same generic analysis label as a chat-call fault; the controller run
surfaces it as the inline error box and terminates normally, and the
state from just before the analysis call (question, freshly stored
transcript, previous feedback) is unchanged. -/
theorem claim_C3 (env : Env) (question text m : String) (st : SessionState)
    (files : List (String × List Nat)) (audio_bytes : List Nat)
    (htr : env.transcription
      { model := "whisper-1", fileBytes := audio_bytes, language := "ja" } = .ok text)
    (hfault : env.chat (parrotAnalysisRequest question text) = .error m ∨
      ∃ c, env.chat (parrotAnalysisRequest question text) = .ok c ∧
        env.jsonLoads c = .error m) :
    analyze_parrot_response env question text = .error ("分析エラー: " ++ m) ∧
    (parrotSubmitRun env question st files audio_bytes).state.current_question =
      st.current_question ∧
    (parrotSubmitRun env question st files audio_bytes).state.transcribed_text = some text ∧
    (parrotSubmitRun env question st files audio_bytes).state.feedback = st.feedback ∧
    (parrotSubmitRun env question st files audio_bytes).shown =
      [.successBox "✅ 音声認識完了", .mdText "### 📝 認識されたテキスト", .textOut text,
       .errorBox ("エラーが発生しました: " ++ ("分析エラー: " ++ m))] := by
  have hana : analyze_parrot_response env question text = .error ("分析エラー: " ++ m) := by
    rcases hfault with h | ⟨c, hc, hj⟩
    · simp [analyze_parrot_response, analysisCall, h]
    · simp [analyze_parrot_response, analysisCall, hc, hj]
  have htra : transcribe_audio env audio_bytes = .ok text := by
    simp [transcribe_audio, htr]
  refine ⟨hana, ?_, ?_, ?_, ?_⟩ <;>
    simp [parrotSubmitRun, submitRun, fsLookup_save, htra, hana]

/-- Witness for C3: a double whose completion is not JSON produces the
labeled analysis error, and the run keeps prior state readable. -/
theorem claim_C3_witness :
    analyze_parrot_response badJsonEnv "質問" "パンを食べました" =
      .error ("分析エラー: " ++ "Expecting value: line 1 column 1 (char 0)") ∧
    (parrotSubmitRun badJsonEnv "質問" ⟨some "質問", none, none⟩ [] [7]).state.feedback =
      none ∧
    (parrotSubmitRun badJsonEnv "質問" ⟨some "質問", none, none⟩ [] [7]).state.current_question =
      some "質問" :=
  ⟨(claim_C3 badJsonEnv "質問" "パンを食べました" "Expecting value: line 1 column 1 (char 0)"
      ⟨some "質問", none, none⟩ [] [7] rfl
      (Or.inr ⟨"not json", rfl, rfl⟩)).1,
   (claim_C3 badJsonEnv "質問" "パンを食べました" "Expecting value: line 1 column 1 (char 0)"
      ⟨some "質問", none, none⟩ [] [7] rfl
      (Or.inr ⟨"not json", rfl, rfl⟩)).2.2.2.1,
   (claim_C3 badJsonEnv "質問" "パンを食べました" "Expecting value: line 1 column 1 (char 0)"
      ⟨some "質問", none, none⟩ [] [7] rfl
      (Or.inr ⟨"not json", rfl, rfl⟩)).2.1⟩

/-- C5: both wired analysis operations embed prompt and transcript
verbatim in the instruction text of the request payload, and return the
JSON value parsed from the completion without modification. -/
theorem claim_C5 (q r : String) :
    containsVerbatim (parrotAnalysisRequest q r).userContent q ∧
    containsVerbatim (parrotAnalysisRequest q r).userContent r ∧
    containsVerbatim (commentaryAnalysisRequest q r).userContent q ∧
    containsVerbatim (commentaryAnalysisRequest q r).userContent r ∧
    (∀ env c j, env.chat (parrotAnalysisRequest q r) = .ok c →
      env.jsonLoads c = .ok j → analyze_parrot_response env q r = .ok j) ∧
    (∀ env c j, env.chat (commentaryAnalysisRequest q r) = .ok c →
      env.jsonLoads c = .ok j → analyze_live_commentary env q r = .ok j) := by
  refine ⟨?_, ?_, ?_, ?_, ?_, ?_⟩
  · exact ⟨parrotRubricHead, parrotRubricMid ++ r ++ parrotRubricTail, by
      simp [parrotAnalysisRequest, parrotAnalysisPrompt, String.append_assoc]⟩
  · exact ⟨parrotRubricHead ++ q ++ parrotRubricMid, parrotRubricTail, rfl⟩
  · exact ⟨commentaryRubricHead, commentaryRubricMid ++ r ++ commentaryRubricTail, by
      simp [commentaryAnalysisRequest, commentaryAnalysisPrompt, String.append_assoc]⟩
  · exact ⟨commentaryRubricHead ++ q ++ commentaryRubricMid, commentaryRubricTail, rfl⟩
  · intro env c j hc hj
    simp [analyze_parrot_response, analysisCall, hc, hj]
  · intro env c j hc hj
    simp [analyze_live_commentary, analysisCall, hc, hj]

/-- Witness for C5 at concrete prompt and transcript, with a double
whose completion parses to a fixed feedback object. -/
theorem claim_C5_witness :
    containsVerbatim (parrotAnalysisRequest "朝ごはんは？" "パンを食べました").userContent
      "朝ごはんは？" ∧
    analyze_parrot_response goodEnv "朝ごはんは？" "パンを食べました" =
      .ok (.obj [("score", .num 85)]) ∧
    analyze_live_commentary goodEnv "部屋" "机があります" =
      .ok (.obj [("score", .num 85)]) :=
  ⟨(claim_C5 "朝ごはんは？" "パンを食べました").1,
   (claim_C5 "朝ごはんは？" "パンを食べました").2.2.2.2.1 goodEnv "feedback json"
     (.obj [("score", .num 85)]) rfl rfl,
   (claim_C5 "部屋" "机があります").2.2.2.2.2 goodEnv "feedback json"
     (.obj [("score", .num 85)]) rfl rfl⟩

/-- C1 as stated is false: the adapter passes the parsed JSON through
with no validation, so a backend response scoring 150 yields a Feedback
whose score lies outside [0,100]. -/
theorem claim_C1_counterexample :
    analyze_parrot_response overRangeEnv "質問" "回答" = .ok (.obj [("score", .num 150)]) ∧
    scoreWithinRange (.obj [("score", .num 150)]) = false ∧
    analyze_live_commentary overRangeEnv "対象" "発話" = .ok (.obj [("score", .num 150)]) := by
  refine ⟨rfl, by decide, rfl⟩

/-- C1 amended: the score of the returned Feedback lies within [0,100]
whenever the score of the JSON object parsed from the completion does;
the adapter returns that object unchanged and never clamps or checks it. -/
theorem claim_C1 (env : Env) (q r c : String) (j : JVal) :
    (env.chat (parrotAnalysisRequest q r) = .ok c → env.jsonLoads c = .ok j →
      scoreWithinRange j = true →
      ∃ fb, analyze_parrot_response env q r = .ok fb ∧ scoreWithinRange fb = true) ∧
    (env.chat (commentaryAnalysisRequest q r) = .ok c → env.jsonLoads c = .ok j →
      scoreWithinRange j = true →
      ∃ fb, analyze_live_commentary env q r = .ok fb ∧ scoreWithinRange fb = true) := by
  constructor
  · intro hc hj hs
    exact ⟨j, by simp [analyze_parrot_response, analysisCall, hc, hj], hs⟩
  · intro hc hj hs
    exact ⟨j, by simp [analyze_live_commentary, analysisCall, hc, hj], hs⟩

/-- Witness for C1 amended: with a double scoring 85, both analyses
return a Feedback whose score is within range. -/
theorem claim_C1_witness :
    (∃ fb, analyze_parrot_response goodEnv "質問" "回答" = .ok fb ∧
      scoreWithinRange fb = true) ∧
    (∃ fb, analyze_live_commentary goodEnv "対象" "発話" = .ok fb ∧
      scoreWithinRange fb = true) :=
  ⟨(claim_C1 goodEnv "質問" "回答" "feedback json" (.obj [("score", .num 85)])).1
      rfl rfl (by decide),
   (claim_C1 goodEnv "対象" "発話" "feedback json" (.obj [("score", .num 85)])).2
      rfl rfl (by decide)⟩

/-- Parrot drill example marker in the question template. -/
def parrotExampleMarker : String := "今日の朝ごはんは何を食べましたか？"

/-- Commentary drill example marker in the topic template. -/
def commentaryExampleMarker : String := "自分のスマートフォン"

/-- Self-questioning drill example marker in the action template. -/
def selfQuestioningExampleMarker : String := "毎朝コーヒーを飲む"

/-- Conclusion-first drill example marker in the question template. -/
def conclusionFirstExampleMarker : String := "あなたにとって仕事で最も大切なことは何ですか？"

/-- C8: each of the four drill tags selects exactly its own fixed
template (the instruction contains that drill's example marker and none
of the other drills' markers), and the completion text is returned with
surrounding whitespace stripped. -/
theorem claim_C8 :
    (questionPrompt "parrot" = parrotQuestionTemplate ∧
     questionPrompt "commentary" = commentaryQuestionTemplate ∧
     questionPrompt "self_questioning" = selfQuestioningQuestionTemplate ∧
     questionPrompt "conclusion_first" = conclusionFirstQuestionTemplate) ∧
    (strContainsB parrotQuestionTemplate parrotExampleMarker = true ∧
     strContainsB commentaryQuestionTemplate commentaryExampleMarker = true ∧
     strContainsB selfQuestioningQuestionTemplate selfQuestioningExampleMarker = true ∧
     strContainsB conclusionFirstQuestionTemplate conclusionFirstExampleMarker = true) ∧
    (strContainsB parrotQuestionTemplate commentaryExampleMarker = false ∧
     strContainsB parrotQuestionTemplate selfQuestioningExampleMarker = false ∧
     strContainsB parrotQuestionTemplate conclusionFirstExampleMarker = false ∧
     strContainsB commentaryQuestionTemplate parrotExampleMarker = false ∧
     strContainsB commentaryQuestionTemplate selfQuestioningExampleMarker = false ∧
     strContainsB commentaryQuestionTemplate conclusionFirstExampleMarker = false ∧
     strContainsB selfQuestioningQuestionTemplate parrotExampleMarker = false ∧
     strContainsB selfQuestioningQuestionTemplate commentaryExampleMarker = false ∧
     strContainsB selfQuestioningQuestionTemplate conclusionFirstExampleMarker = false ∧
     strContainsB conclusionFirstQuestionTemplate parrotExampleMarker = false ∧
     strContainsB conclusionFirstQuestionTemplate commentaryExampleMarker = false ∧
     strContainsB conclusionFirstQuestionTemplate selfQuestioningExampleMarker = false) ∧
    (∀ env t content, env.chat (questionRequest t) = .ok content →
      generate_question env t = .ok (pyStrip content)) := by
  refine ⟨⟨rfl, rfl, rfl, rfl⟩, by decide, by decide, ?_⟩
  intro env t content h
  simp [generate_question, h]

/-- Witness for C8: a stubbed completion for the parrot drill comes back
stripped of surrounding whitespace. -/
theorem claim_C8_witness :
    generate_question (constChatEnv " 好きな色は何ですか？ ") "parrot" =
      .ok "好きな色は何ですか？" := by
  rw [claim_C8.2.2.2 (constChatEnv " 好きな色は何ですか？ ") "parrot"
    " 好きな色は何ですか？ " rfl]
  rfl

/-- Keys display_feedback reads from the feedback dictionary. -/
def displayReadKeys : List String :=
  ["score", "feedback", "good_points", "improvements", "has_parrot", "has_answer",
   "sentence_count", "avg_sentence_length"]

/-- Absent keys make dict.get return its default. -/
theorem dictGet_absent (fields : List (String × JVal)) (k : String) (d : JVal)
    (h : jFieldLookup fields k = none) : dictGet fields k d = d := by
  induction fields with
  | nil => rfl
  | cons kv rest ih =>
    by_cases hk : kv.fst = k
    · simp [jFieldLookup, hk] at h
    · simp [jFieldLookup, hk] at h
      simp [dictGet, hk, ih h]

/-- C9: a feedback dictionary containing none of the read keys renders
successfully with every default in place — score shown as 0/100 in the
warning band, empty commentary text, both lists empty, drill booleans
false — rather than surfacing any malformed-response error. -/
theorem claim_C9 (feedback : List (String × JVal)) (training_type : String)
    (h : ∀ k, k ∈ displayReadKeys → jFieldLookup feedback k = none) :
    display_feedback feedback training_type = some
      { score := 0, scoreText := "0/100", band := .low, progressValue := 0,
        feedbackText := .str "", goodPoints := [], improvements := [],
        parrotFlags := if training_type = "parrot" then some (false, false) else none,
        commentaryStats := if training_type = "commentary" then some (.num 0, 0) else none } := by
  have hs := dictGet_absent feedback "score" (.num 0) (h "score" (by simp [displayReadKeys]))
  have hf := dictGet_absent feedback "feedback" (.str "")
    (h "feedback" (by simp [displayReadKeys]))
  have hg := dictGet_absent feedback "good_points" (.arr [])
    (h "good_points" (by simp [displayReadKeys]))
  have hi := dictGet_absent feedback "improvements" (.arr [])
    (h "improvements" (by simp [displayReadKeys]))
  have hp := dictGet_absent feedback "has_parrot" (.bool false)
    (h "has_parrot" (by simp [displayReadKeys]))
  have ha := dictGet_absent feedback "has_answer" (.bool false)
    (h "has_answer" (by simp [displayReadKeys]))
  have hc := dictGet_absent feedback "sentence_count" (.num 0)
    (h "sentence_count" (by simp [displayReadKeys]))
  have hl := dictGet_absent feedback "avg_sentence_length" (.num 0)
    (h "avg_sentence_length" (by simp [displayReadKeys]))
  by_cases h1 : training_type = "parrot"
  · simp [display_feedback, hs, hf, hg, hi, hp, ha, h1, pyNum, pyLoopItems, pyTruthy,
      scoreBand, pyNumRepr]
    constructor <;> rfl
  · by_cases h2 : training_type = "commentary"
    · simp [display_feedback, hs, hf, hg, hi, hc, hl, h1, h2, pyNum, pyLoopItems, pyTruthy,
        scoreBand, pyNumRepr]
      constructor <;> rfl
    · simp [display_feedback, hs, hf, hg, hi, h1, h2, pyNum, pyLoopItems, pyTruthy,
        scoreBand, pyNumRepr]
      constructor <;> rfl

/-- Witness for C9: a dictionary holding only an unread extra key
renders with all defaults for the parrot drill. -/
theorem claim_C9_witness :
    display_feedback [("extra", JVal.str "x")] "parrot" = some
      { score := 0, scoreText := "0/100", band := .low, progressValue := 0,
        feedbackText := .str "", goodPoints := [], improvements := [],
        parrotFlags := some (false, false), commentaryStats := none } := by
  have h := claim_C9 [("extra", JVal.str "x")] "parrot" (by
    intro k hk
    simp [displayReadKeys] at hk
    rcases hk with rfl | rfl | rfl | rfl | rfl | rfl | rfl | rfl <;> rfl)
  simpa using h

end SpeechDojo
